import Mathlib

/-!
Shallow embedding of the `DLiteGenerateStrategy.get` pipeline of
`oteapi_dlite/strategies/generate.py` (EMMC-ASBL/oteapi-dlite-plugin).

Python side effects on the data cache, the filesystem, and the knowledge
base are modelled by explicit state passing on a `World` record.  A raised
Python exception is an `Except.error`; since the mutated stores are
external and durable, `generate` returns the world reached at the point of
the raise together with the outcome.  Python truthiness of optional
strings and dicts (`if config.label:` is false for both `None` and `""`)
is modelled by `truthyS` / `truthyD`.

External collaborators (the dlite typed-instance system and the tripper
triplestore client) enter through a `Sem` record of pure functions:
mapping-driven instance construction, driver serialization, and the
knowledge-graph restriction query.
-/

namespace OteapiDlite

/-- A dlite typed instance: its own URI, the URI of its metadata
(datamodel), and an abstract serialisable payload. -/
structure Inst where
  uri : String
  metaUri : String
  content : List Nat
deriving DecidableEq, Repr

/-- A dlite collection: identifier, labelled instances, relation triples. -/
structure Collection where
  id : String
  insts : List (String × Inst)
  rels : List (String × String × String)
deriving DecidableEq, Repr

/-- The artifact selected for persistence: a single instance or the
collection itself (lines 224-241 bind both to `inst`). -/
inductive Artifact where
  | inst (i : Inst)
  | coll (c : Collection)
deriving DecidableEq, Repr

/-- `inst.meta.uri` of the selected artifact (a collection has the fixed
dlite collection metadata URI). -/
def Artifact.metaUri : Artifact → String
  | .inst i => i.metaUri
  | .coll _ => "http://onto-ns.com/meta/0.1/Collection"

/-- The `accessKey` part of `oteapi.models.DataCacheConfig` used by the
strategy. -/
structure DataCacheConfig where
  accessKey : Option String := none
deriving DecidableEq, Repr

/-- `DLiteStorageConfig` of `generate.py` (lines 32-168), fields and
defaults as declared there. -/
structure DLiteStorageConfig where
  driver : Option String := none
  mediaType : Option String := none
  options : Option String := none
  location : Option String := none
  label : Option String := none
  datamodel : Option String := none
  store_collection : Bool := false
  store_collection_id : Option String := none
  allow_incomplete : Bool := false
  collection_id : Option String := none
  datacache_config : Option DataCacheConfig := none
  kb_document_iri : Option String := none
  kb_document_context : Option (List (String × String)) := none
  kb_document_computation : Option String := none
deriving DecidableEq, Repr

/-- Python exceptions that can escape `DLiteGenerateStrategy.get`. -/
inductive Err where
  | valueError (msg : String)
  | keyError (msg : String)
  | notFound (id : String)
  | configurationError (msg : String)
  | unsupportedMediaType (mt : String)
  | stopIteration
  | nameError (n : String)
  | kbError (msg : String)
  | fileNotFound (path : String)
deriving DecidableEq, Repr

/-- Python truthiness of an optional string: `None` and `""` are falsy. -/
def truthyS : Option String → Bool
  | none => false
  | some s => !(s == "")

/-- Python truthiness of an optional dict: `None` and `{}` are falsy. -/
def truthyD {α : Type} : Option (List (String × α)) → Bool
  | none => false
  | some l => !l.isEmpty

/-- The structured resource description built at lines 272-290 and saved
against `kb_document_iri` with `save_container`. -/
structure ResourceDesc where
  downloadUrl : Option String
  mediaType : String
  metadata : String
  driver : Option String
  options : Option String
deriving DecidableEq, Repr

/-- State of the external knowledge base reachable through `tripper`:
asserted triples, saved containers, and how many connections were opened
and closed against it. -/
structure KBState where
  triples : List (String × String × String)
  containers : List (String × ResourceDesc)
  openCount : Nat
  closeCount : Nat
deriving DecidableEq, Repr

/-- The durable world a call to `generate` runs in: the collection
registry, the ambient session, the data cache, the filesystem, the
knowledge base, and the fresh temporary directory path this call's
`tempfile.TemporaryDirectory()` yields. -/
structure World where
  registry : List (String × Collection)
  sessionCollId : Option String
  settings : List (String × List (String × String))
  cache : List (String × List Nat)
  fs : List (String × List Nat)
  kb : KBState
  tmpdir : String
deriving DecidableEq, Repr

/-- First-match association lookup. -/
def lookupA {α : Type} : List (String × α) → String → Option α
  | [], _ => none
  | (k2, v) :: rest, k => if k2 == k then some v else lookupA rest k

/-- Association update: the new binding shadows and removes any old one. -/
def insertA {α : Type} (l : List (String × α)) (k : String) (v : α) :
    List (String × α) :=
  (k, v) :: l.filter (fun p => !(p.1 == k))

/-- Pure semantics of the external collaborators (dlite and tripper). -/
structure Sem where
  driverTable : List (String × String)
  get_instances : Collection → String → Bool → List Inst
  serialize : String → Option String → Artifact → List Nat
  restrictions : KBState → String → String → List String

/-- Modelled from the spec: `get_driver` is imported from
`oteapi_dlite.utils`, whose implementation module is not among the source
files.  Spec section 4.2: look the media type up in a fixed registry
table, failing with `UnsupportedMediaTypeError` when the entry is absent,
and with `ConfigurationError` when no media type is given at all (the
explicit-driver short circuit is inlined at the call site, lines 216-220
of `generate.py`). -/
def get_driver (sem : Sem) (mediaType : Option String) : Except Err String :=
  if truthyS mediaType then
    match lookupA sem.driverTable (mediaType.getD "") with
    | some d => .ok d
    | none => .error (.unsupportedMediaType (mediaType.getD ""))
  else .error (.configurationError "Neither driver nor mediaType was given")

/-- Modelled from the spec: `get_collection` is imported from
`oteapi_dlite.utils`, whose implementation module is not among the source
files.  Spec section 4.1: with an id, return the existing collection for
that id or fail with `NotFoundError`; without an id, return the collection
associated with the ambient session, creating one if absent. -/
def get_collection (w : World) (cid : Option String) :
    World × Except Err Collection :=
  match cid with
  | some i =>
    match lookupA w.registry i with
    | some c => (w, .ok c)
    | none => (w, .error (.notFound i))
  | none =>
    let sid := w.sessionCollId.getD "session-collection"
    match lookupA w.registry sid with
    | some c => (w, .ok c)
    | none =>
      let c : Collection := { id := sid, insts := [], rels := [] }
      ({ w with registry := insertA w.registry sid c,
                sessionCollId := some sid }, .ok c)

/-- Modelled from the spec: `get_settings` is imported from
`oteapi_dlite.utils`, whose implementation module is not among the source
files.  Spec section 6: read a named settings blob from the ambient
session context. -/
def get_settings (w : World) (key : String) :
    Option (List (String × String)) :=
  lookupA w.settings key

/-- Modelled from the spec: `update_collection` is imported from
`oteapi_dlite.utils`, whose implementation module is not among the source
files.  Spec section 4.1: publish the collection back into the ambient
session context so later pipeline steps observe it. -/
def update_collection (w : World) (c : Collection) : World :=
  { w with registry := insertA w.registry c.id c }

/-- The `hasInput` EMMO IRI constant (line 25 of `generate.py`). -/
def hasInput : String :=
  "https://w3id.org/emmo#EMMO_36e69413_8c59_4799_946c_10b05d266e22"

/-- Driver resolution, lines 216-220: the explicit `driver` if truthy,
otherwise `get_driver(mediaType=config.mediaType)`. -/
def resolveDriver (sem : Sem) (config : DLiteStorageConfig) :
    Except Err String :=
  if truthyS config.driver then .ok (config.driver.getD "")
  else get_driver sem config.mediaType

/-- Instance selection, lines 224-241: `label` lookup, else first element
of `coll.get_instances(...)` for `datamodel`, else the collection (copied
under `store_collection_id` when that is truthy), else `ValueError`. -/
def selectInst (sem : Sem) (config : DLiteStorageConfig)
    (coll : Collection) : Except Err Artifact :=
  if truthyS config.label then
    match lookupA coll.insts (config.label.getD "") with
    | some i => .ok (.inst i)
    | none => .error (.keyError (config.label.getD ""))
  else if truthyS config.datamodel then
    match sem.get_instances coll (config.datamodel.getD "")
        config.allow_incomplete with
    | [] => .error .stopIteration
    | i :: _ => .ok (.inst i)
  else if config.store_collection then
    if truthyS config.store_collection_id then
      .ok (.coll { coll with id := config.store_collection_id.getD "" })
    else
      .ok (.coll coll)
  else
    .error (.valueError
      "One of `label` or `datamodel` configurations should be given.")

/-- Cache key choice, lines 247-250: `datacache_config.accessKey` when
truthy, else the fixed default. -/
def cacheKey (config : DLiteStorageConfig) : String :=
  match config.datacache_config with
  | some cc => if truthyS cc.accessKey then cc.accessKey.getD ""
               else "generate_data"
  | none => "generate_data"

/-- The literal relative path the source writes to at line 253:
`inst.save(driver, "\x7btmpdir\x7d/data", config.options)` has no f-string
prefix, so no substitution of `tmpdir` happens. -/
def litTmpPath : String := "\x7btmpdir\x7d/data"

/-- Character-level string prefix test (kernel-reducible). -/
def strStarts (pre s : String) : Bool := pre.data.isPrefixOf s.data

/-- Remove every path under the temporary directory, as the
`tempfile.TemporaryDirectory()` context manager does on scope exit. -/
def dropTmp (fs : List (String × List Nat)) (tmpdir : String) :
    List (String × List Nat) :=
  fs.filter (fun p => !(strStarts (tmpdir ++ "/") p.1))

/-- Persistence, lines 244-255.  With a truthy `location` the artifact is
serialized straight to it.  Otherwise the source serializes to the literal
path `litTmpPath` (line 253, missing f-string prefix), then opens the
f-string path `tmpdir ++ "/data"` for reading (line 254); when that path
holds no file the open raises `FileNotFoundError`.  The temporary
directory is removed on both exits of the `with` block. -/
def saveInst (sem : Sem) (config : DLiteStorageConfig) (driver : String)
    (inst : Artifact) (w : World) : World × Except Err Unit :=
  if truthyS config.location then
    let bytes := sem.serialize driver config.options inst
    ({ w with fs := insertA w.fs (config.location.getD "") bytes }, .ok ())
  else
    let key := cacheKey config
    let fs1 := insertA w.fs litTmpPath
      (sem.serialize driver config.options inst)
    let readPath := w.tmpdir ++ "/data"
    match lookupA fs1 readPath with
    | some bytes =>
      ({ w with fs := dropTmp fs1 w.tmpdir,
                cache := insertA w.cache key bytes }, .ok ())
    | none =>
      ({ w with fs := dropTmp fs1 w.tmpdir },
       .error (.fileNotFound readPath))

/-- The world after the location branch of `saveInst`: the serialized
bytes are written at the configured location. -/
def locWorld (sem : Sem) (config : DLiteStorageConfig) (driver : String)
    (a : Artifact) (w : World) : World :=
  let bytes := sem.serialize driver config.options a
  { w with fs := insertA w.fs (config.location.getD "") bytes }

/-- The resource description of lines 272-290: `downloadUrl` is
`config.location`, `mediaType` falls back to the dlite-parse type,
`metadata` falls back to `inst.meta.uri`, and `driver` is the raw
`config.driver` field. -/
def mkResource (config : DLiteStorageConfig) (inst : Artifact) :
    ResourceDesc :=
  { downloadUrl := config.location
    mediaType := if truthyS config.mediaType then config.mediaType.getD ""
                 else "application/vnd.dlite-parse"
    metadata := if truthyS config.datamodel then config.datamodel.getD ""
                else inst.metaUri
    driver := config.driver
    options := config.options }

/-- The body of the `try` block, lines 294-322: `save_container`, the
`kb_document_context` triples, then the `kb_document_computation` loop.
The first statement of that loop, `indv = inputs.append(r["value"])`
(line 310), evaluates the undefined name `inputs`, so any non-empty
restriction list raises `NameError` on the first iteration. -/
def kbBody (sem : Sem) (config : DLiteStorageConfig)
    (resource : ResourceDesc) (kb : KBState) : KBState × Except Err Unit :=
  let cs := insertA kb.containers (config.kb_document_iri.getD "") resource
  let kb1 := { kb with containers := cs }
  let ctxTriples := (config.kb_document_context.getD []).map
    (fun pv => (config.kb_document_iri.getD "", pv.1, pv.2))
  let kb2 :=
    if truthyD config.kb_document_context then
      { kb1 with triples := kb1.triples ++ ctxTriples }
    else kb1
  if truthyS config.kb_document_computation then
    match sem.restrictions kb2 (config.kb_document_computation.getD "")
        hasInput with
    | [] => (kb2, .ok ())
    | _ :: _ => (kb2, .error (.nameError "inputs"))
  else (kb2, .ok ())

/-- The message of the `KeyError` raised at lines 261-265 when the
`tripper.triplestore` settings are missing. -/
def kbSettingsMsg : String :=
  "The `kb_document_iri` configuration requires that a tripper.triplestore settings has been added using the application/vnd.dlite-settings strategy."

/-- Knowledge-base documentation, lines 258-325: nothing when
`kb_document_iri` is not truthy; `KeyError` when the
`tripper.triplestore` settings are absent (or empty, by Python
truthiness); otherwise open a `Triplestore`, run `kbBody` under
`try`, and close the connection in the `finally` clause on both exits. -/
def kbDocument (sem : Sem) (config : DLiteStorageConfig) (inst : Artifact)
    (w : World) : World × Except Err Unit :=
  if truthyS config.kb_document_iri then
    if truthyD (get_settings w "tripper.triplestore") then
      let resource := mkResource config inst
      let kbOpen := { w.kb with openCount := w.kb.openCount + 1 }
      let res := kbBody sem config resource kbOpen
      let kbClosed := { res.1 with closeCount := res.1.closeCount + 1 }
      ({ w with kb := kbClosed }, res.2)
    else
      (w, .error (.keyError kbSettingsMsg))
  else (w, .ok ())

/-- `DLiteGenerateStrategy.get`, lines 199-334: resolve the driver, fetch
the collection, select the artifact, persist it, document it in the
knowledge base, publish the collection, and return its id.  An
`Except.error` outcome carries the durable world reached at the raise. -/
def generate (sem : Sem) (config : DLiteStorageConfig) (w : World) :
    World × Except Err String :=
  match resolveDriver sem config with
  | .error e => (w, .error e)
  | .ok driver =>
    match get_collection w config.collection_id with
    | (w1, .error e) => (w1, .error e)
    | (w1, .ok coll) =>
      match selectInst sem config coll with
      | .error e => (w1, .error e)
      | .ok inst =>
        match saveInst sem config driver inst w1 with
        | (w2, .error e) => (w2, .error e)
        | (w2, .ok _) =>
          match kbDocument sem config inst w2 with
          | (w3, .error e) => (w3, .error e)
          | (w3, .ok _) =>
            (update_collection w3 coll, .ok coll.id)

/-! Concrete exemplar collaborator semantics and worlds, used to witness
and to refute the universal claims on explicit inputs. -/

/-- A concrete image instance living in the exemplar collection. -/
def instEx : Inst :=
  { uri := "http://data.org/image1"
    metaUri := "http://onto-ns.com/meta/1.0/Image"
    content := [1, 2, 3, 4] }

/-- The exemplar collection holding `instEx` under the label `image`. -/
def collEx : Collection :=
  { id := "c1", insts := [("image", instEx)], rels := [] }

/-- An empty initial knowledge-base state. -/
def kbEx : KBState :=
  { triples := [], containers := [], openCount := 0, closeCount := 0 }

/-- Exemplar world: registry with `collEx`, empty cache, empty filesystem,
no settings, fresh temporary directory `/tmp/t1`. -/
def wEx : World :=
  { registry := [("c1", collEx)]
    sessionCollId := some "c1"
    settings := []
    cache := []
    fs := []
    kb := kbEx
    tmpdir := "/tmp/t1" }

/-- `wEx` with the `tripper.triplestore` settings provisioned. -/
def wKb : World :=
  { wEx with settings := [("tripper.triplestore", [("backend", "rdflib")])] }

/-- Concrete collaborator semantics: a one-entry media-type table,
mapping-driven construction by metadata filtering, a serializer injective
in the artifact payload, and a knowledge base holding a single has-input
restriction on the exemplar computation class. -/
def semEx : Sem :=
  { driverTable := [("application/json", "json")]
    get_instances := fun c dm _ =>
      (c.insts.filter (fun p => p.2.metaUri == dm)).map (fun p => p.2)
    serialize := fun d o a =>
      d.length :: (match o with | none => 0 | some s => s.length + 1) ::
        (match a with
         | .inst i => i.content
         | .coll c => [c.id.length, c.insts.length, c.rels.length])
    restrictions := fun _ comp pred =>
      if comp == "http://ex.com/comp" && pred == hasInput then
        ["http://ex.com/input1"]
      else [] }

/-- Cache-branch config for claim C1: label selection, explicit driver,
no location, no access key. -/
def cfgC1 : DLiteStorageConfig :=
  { driver := some "json", label := some "image", collection_id := some "c1" }

/-- Config setting all three selection fields at once (label, datamodel
and store_collection), with an explicit location. -/
def cfgC2 : DLiteStorageConfig :=
  { driver := some "json", label := some "image"
    datamodel := some "http://onto-ns.com/meta/1.0/Image"
    store_collection := true, location := some "/out/f.json"
    collection_id := some "c1" }

/-- Config documenting a computation: label selection, location, knowledge
base documentation with a computation class that has one input
restriction in `semEx`. -/
def cfgC3 : DLiteStorageConfig :=
  { driver := some "json", label := some "image"
    location := some "/out/f.json", collection_id := some "c1"
    kb_document_iri := some "http://ex.com/indv"
    kb_document_computation := some "http://ex.com/comp" }

/-- Config selecting by a datamodel matched by no instance, with an
explicit cache access key. -/
def cfgC4 : DLiteStorageConfig :=
  { driver := some "json"
    datamodel := some "http://onto-ns.com/meta/1.0/Missing"
    collection_id := some "c1"
    datacache_config := some { accessKey := some "k1" } }

/-- Location branch of the round-trip comparison. -/
def cfgC5loc : DLiteStorageConfig :=
  { driver := some "json", label := some "image"
    location := some "/out/f.json", collection_id := some "c1" }

/-- Cache branch of the round-trip comparison, keyed `k1`. -/
def cfgC5cache : DLiteStorageConfig :=
  { driver := some "json", label := some "image"
    collection_id := some "c1"
    datacache_config := some { accessKey := some "k1" } }

/-- Config with no selection field and a collection id absent from the
registry. -/
def cfgC6 : DLiteStorageConfig :=
  { driver := some "json", collection_id := some "nope" }

/-- Config with no selection field but a resolvable driver and an existing
collection. -/
def cfgC6w : DLiteStorageConfig :=
  { driver := some "json", collection_id := some "c1" }

/-- Config requesting knowledge-base documentation without settings, on
the cache persistence branch. -/
def cfgC7bad : DLiteStorageConfig :=
  { driver := some "json", label := some "image"
    collection_id := some "c1"
    kb_document_iri := some "http://ex.com/indv" }

/-- Config requesting knowledge-base documentation without settings, on
the location persistence branch. -/
def cfgC7loc : DLiteStorageConfig :=
  { driver := some "json", label := some "image"
    location := some "/out/g.json", collection_id := some "c1"
    kb_document_iri := some "http://ex.com/indv" }

/-- Config storing a copy of the whole collection under a new id. -/
def cfgC9 : DLiteStorageConfig :=
  { driver := some "json", store_collection := true
    store_collection_id := some "copy1"
    location := some "/out/c.json", collection_id := some "c1" }

/-- Config resolving the driver from the media type while documenting the
generated instance in the knowledge base. -/
def cfgC10 : DLiteStorageConfig :=
  { mediaType := some "application/json", label := some "image"
    location := some "/out/d.json", collection_id := some "c1"
    kb_document_iri := some "http://ex.com/d1" }

/-- Does the outcome carry the error the spec calls ConfigurationError
(the selection `ValueError` or the driver-resolution variant)? -/
def isConfigError : Except Err String → Bool
  | .error (.valueError _) => true
  | .error (.configurationError _) => true
  | _ => false


/-! Helper lemmas. -/

/-- Updating an association list and reading the same key back. -/
theorem lookupA_insertA_self {α : Type} (l : List (String × α)) (k : String)
    (v : α) : lookupA (insertA l k v) k = some v := by
  unfold insertA lookupA
  simp

/-- `get_collection` touches neither the cache, the filesystem, the
knowledge base, the settings, nor the temporary directory. -/
theorem get_collection_frame (w : World) (cid : Option String) :
    (get_collection w cid).1.cache = w.cache
    ∧ (get_collection w cid).1.fs = w.fs
    ∧ (get_collection w cid).1.kb = w.kb
    ∧ (get_collection w cid).1.settings = w.settings
    ∧ (get_collection w cid).1.tmpdir = w.tmpdir := by
  unfold get_collection
  cases cid with
  | none =>
    cases h : lookupA w.registry (w.sessionCollId.getD "session-collection") <;>
      simp [h]
  | some i =>
    cases h : lookupA w.registry i <;> simp [h]

/-- `saveInst` touches neither the knowledge base, the settings, the
registry, nor the session collection id. -/
theorem saveInst_frame (sem : Sem) (config : DLiteStorageConfig)
    (driver : String) (inst : Artifact) (w : World) :
    (saveInst sem config driver inst w).1.kb = w.kb
    ∧ (saveInst sem config driver inst w).1.settings = w.settings
    ∧ (saveInst sem config driver inst w).1.registry = w.registry
    ∧ (saveInst sem config driver inst w).1.sessionCollId = w.sessionCollId := by
  unfold saveInst
  by_cases h : truthyS config.location = true
  · simp [h]
  · simp only [h, if_false]
    cases lookupA (insertA w.fs litTmpPath
        (sem.serialize driver config.options inst)) (w.tmpdir ++ "/data") <;>
      simp

/-- `kbBody` never changes the connection counters. -/
theorem kbBody_counts (sem : Sem) (config : DLiteStorageConfig)
    (resource : ResourceDesc) (kb : KBState) :
    (kbBody sem config resource kb).1.openCount = kb.openCount
    ∧ (kbBody sem config resource kb).1.closeCount = kb.closeCount := by
  unfold kbBody
  by_cases hc : truthyD config.kb_document_context = true <;>
    by_cases hk : truthyS config.kb_document_computation = true <;>
      simp [hc, hk] <;> split <;> simp

/-- Unfolding `generate` when instance selection fails after a successful
driver resolution and collection lookup. -/
theorem generate_sel_err (sem : Sem) (config : DLiteStorageConfig)
    (w w1 : World) (coll : Collection) (driver : String) (e : Err)
    (hdrv : resolveDriver sem config = .ok driver)
    (hcoll : get_collection w config.collection_id = (w1, .ok coll))
    (hsel : selectInst sem config coll = .error e) :
    generate sem config w = (w1, .error e) := by
  simp only [generate, hdrv, hcoll, hsel]

/-- Unfolding `generate` on the fully successful path. -/
theorem generate_run_ok (sem : Sem) (config : DLiteStorageConfig)
    (w w1 w2 w3 : World) (coll : Collection) (inst : Artifact)
    (driver : String)
    (hdrv : resolveDriver sem config = .ok driver)
    (hcoll : get_collection w config.collection_id = (w1, .ok coll))
    (hsel : selectInst sem config coll = .ok inst)
    (hsave : saveInst sem config driver inst w1 = (w2, .ok ()))
    (hkb : kbDocument sem config inst w2 = (w3, .ok ())) :
    generate sem config w = (update_collection w3 coll, .ok coll.id) := by
  simp only [generate, hdrv, hcoll, hsel, hsave, hkb]

/-- `kbBody` always saves the resource description under the document
IRI. -/
theorem kbBody_containers (sem : Sem) (config : DLiteStorageConfig)
    (resource : ResourceDesc) (kb : KBState) :
    (kbBody sem config resource kb).1.containers
      = insertA kb.containers (config.kb_document_iri.getD "") resource := by
  unfold kbBody
  by_cases hc : truthyD config.kb_document_context = true <;>
    by_cases hk : truthyS config.kb_document_computation = true <;>
      simp [hc, hk] <;> split <;> simp

/-- Without a computation IRI, `kbBody` succeeds. -/
theorem kbBody_ok (sem : Sem) (config : DLiteStorageConfig)
    (resource : ResourceDesc) (kb : KBState)
    (hcomp : truthyS config.kb_document_computation = false) :
    (kbBody sem config resource kb).2 = .ok () := by
  unfold kbBody
  by_cases hc : truthyD config.kb_document_context = true <;>
    simp [hc, hcomp]

/-- With a truthy document IRI and provisioned settings, `kbDocument`
leaves the resource description retrievable under the IRI and does not
touch the filesystem. -/
theorem kbDocument_saved (sem : Sem) (config : DLiteStorageConfig)
    (inst : Artifact) (w : World)
    (hiri : truthyS config.kb_document_iri = true)
    (hset : truthyD (get_settings w "tripper.triplestore") = true) :
    lookupA (kbDocument sem config inst w).1.kb.containers
      (config.kb_document_iri.getD "") = some (mkResource config inst)
    ∧ (kbDocument sem config inst w).1.fs = w.fs := by
  unfold kbDocument
  simp [hiri, hset, kbBody_containers, lookupA_insertA_self]

/-! The claims. -/

/-- Claim C1 (code bug): on a no-location invocation the serialized bytes
are supposed to land in the cache under `accessKey`, defaulting to
`generate_data`.  In the source, line 253 saves to the literal path
`litTmpPath` (the f-string prefix is missing) while line 254 opens the
real temporary path, so the call raises `FileNotFoundError`, nothing is
cached under the default key, and only the temporary-directory cleanup
part of the claim holds.  Evaluated at a concrete no-location
invocation. -/
theorem C1_cache_branch_raises :
    (generate semEx cfgC1 wEx).2 = .error (.fileNotFound "/tmp/t1/data")
    ∧ (generate semEx cfgC1 wEx).1.cache = []
    ∧ lookupA (generate semEx cfgC1 wEx).1.cache "generate_data" = none
    ∧ ((generate semEx cfgC1 wEx).1.fs.all
        (fun p => !(strStarts "/tmp/t1/" p.1))) = true :=
  ⟨rfl, rfl, rfl, rfl⟩

/-- Claim C2 (counterexample): a configuration setting all of `label`,
`datamodel` and `store_collection` at once is not rejected with a
configuration error: `generate` succeeds, resolving the conflict by
precedence. -/
theorem C2_counterexample :
    (generate semEx cfgC2 wEx).2 = .ok "c1"
    ∧ isConfigError (generate semEx cfgC2 wEx).2 = false :=
  ⟨rfl, rfl⟩

/-- Claim C2 (amended): when more than one of `label`, `datamodel` and
`store_collection` is set, selection is resolved by precedence instead of
being rejected: a truthy `label` makes selection ignore `datamodel` and
`store_collection`, and with `label` unset a truthy `datamodel` makes it
ignore `store_collection`. -/
theorem C2_label_precedence (sem : Sem) (config : DLiteStorageConfig)
    (coll : Collection) :
    (truthyS config.label = true →
      selectInst sem config coll =
        selectInst sem
          { config with datamodel := none, store_collection := false } coll)
    ∧ (truthyS config.label = false → truthyS config.datamodel = true →
      selectInst sem config coll =
        selectInst sem { config with store_collection := false } coll) := by
  constructor
  · intro h
    unfold selectInst
    simp [h]
  · intro h1 h2
    unfold selectInst
    simp [h1, h2]

/-- Witness for C2_label_precedence at the all-three-set configuration. -/
theorem C2_label_precedence_witness :
    truthyS cfgC2.label = true
    ∧ selectInst semEx cfgC2 collEx =
        selectInst semEx
          { cfgC2 with datamodel := none, store_collection := false } collEx :=
  ⟨rfl, (C2_label_precedence semEx cfgC2 collEx).1 rfl⟩

/-- Claim C3 (code bug): with `kb_document_iri` and
`kb_document_computation` both configured and one has-input restriction
present for the computation class, the input-consistency check never
runs: the first loop iteration at line 310 evaluates the undefined name
`inputs` (and `load_container` is never imported), so the call raises
`NameError` instead of loading each input's description and raising
`KBError` on a missing metadata identifier. -/
theorem C3_input_check_raises_nameerror :
    (generate semEx cfgC3 wKb).2 = .error (.nameError "inputs")
    ∧ semEx.restrictions wKb.kb "http://ex.com/comp" hasInput
        = ["http://ex.com/input1"] :=
  ⟨rfl, rfl⟩

/-- Claim C4: selecting by `datamodel` takes the first element of the
sequence of instances constructible from the collection's mappings; when
that sequence is empty the call fails with the no-match error (the
`StopIteration` of `next` at line 232) and the cache is never written. -/
theorem C4_datamodel_no_match (sem : Sem) (config : DLiteStorageConfig)
    (w w1 : World) (coll : Collection) (driver : String)
    (hdrv : resolveDriver sem config = .ok driver)
    (hcoll : get_collection w config.collection_id = (w1, .ok coll))
    (hl : truthyS config.label = false)
    (hd : truthyS config.datamodel = true) :
    (sem.get_instances coll (config.datamodel.getD "")
        config.allow_incomplete = [] →
      (generate sem config w).2 = .error .stopIteration
      ∧ (generate sem config w).1.cache = w.cache)
    ∧ (∀ i rest, sem.get_instances coll (config.datamodel.getD "")
        config.allow_incomplete = i :: rest →
      selectInst sem config coll = .ok (.inst i)) := by
  constructor
  · intro hempty
    have hsel : selectInst sem config coll = .error .stopIteration := by
      unfold selectInst
      simp [hl, hd, hempty]
    have hg := generate_sel_err sem config w w1 coll driver .stopIteration
      hdrv hcoll hsel
    have hfr := get_collection_frame w config.collection_id
    rw [hcoll] at hfr
    exact ⟨by rw [hg], by rw [hg]; exact hfr.1⟩
  · intro i rest hcons
    unfold selectInst
    simp [hl, hd, hcons]

/-- Witness for C4_datamodel_no_match at a datamodel matched by no
instance. -/
theorem C4_datamodel_no_match_witness :
    semEx.get_instances collEx (cfgC4.datamodel.getD "")
        cfgC4.allow_incomplete = []
    ∧ ((generate semEx cfgC4 wEx).2 = .error .stopIteration
      ∧ (generate semEx cfgC4 wEx).1.cache = wEx.cache) :=
  ⟨rfl, (C4_datamodel_no_match semEx cfgC4 wEx wEx collEx "json"
    rfl rfl rfl rfl).1 rfl⟩

/-- Claim C5 (code bug): round-trip equivalence between the two
persistence branches fails on the code.  For the same artifact and driver
the location branch leaves the serialized bytes retrievable at the
destination, while the cache branch raises `FileNotFoundError` (line 253
writes to the literal path `litTmpPath`) and leaves nothing under the
configured cache key, so no byte-identical read-back exists. -/
theorem C5_roundtrip_broken :
    lookupA (generate semEx cfgC5loc wEx).1.fs "/out/f.json"
      = some (semEx.serialize "json" none (Artifact.inst instEx))
    ∧ (generate semEx cfgC5cache wEx).2
      = .error (.fileNotFound "/tmp/t1/data")
    ∧ lookupA (generate semEx cfgC5cache wEx).1.cache "k1" = none :=
  ⟨rfl, rfl, rfl⟩

/-- Claim C6 (counterexample): a configuration with none of `label`,
`datamodel` and `store_collection` set does not always fail with the
configuration `ValueError`: with a `collection_id` absent from the
registry the collection lookup fails first, with `NotFoundError`. -/
theorem C6_counterexample :
    (generate semEx cfgC6 wEx).2 = .error (.notFound "nope")
    ∧ isConfigError (generate semEx cfgC6 wEx).2 = false :=
  ⟨rfl, rfl⟩

/-- Claim C6 (amended): when the driver resolves and the collection
lookup succeeds, a configuration with none of `label`, `datamodel` and
`store_collection` set fails with the configuration `ValueError` of lines
238-241 before any side effect: the cache, the filesystem and the
knowledge base are unchanged. -/
theorem C6_no_policy_config_error (sem : Sem) (config : DLiteStorageConfig)
    (w w1 : World) (coll : Collection) (driver : String)
    (hdrv : resolveDriver sem config = .ok driver)
    (hcoll : get_collection w config.collection_id = (w1, .ok coll))
    (hl : truthyS config.label = false)
    (hd : truthyS config.datamodel = false)
    (hs : config.store_collection = false) :
    isConfigError (generate sem config w).2 = true
    ∧ (generate sem config w).2 = .error (.valueError
        "One of `label` or `datamodel` configurations should be given.")
    ∧ (generate sem config w).1.cache = w.cache
    ∧ (generate sem config w).1.fs = w.fs
    ∧ (generate sem config w).1.kb = w.kb := by
  have hsel : selectInst sem config coll = .error (.valueError
      "One of `label` or `datamodel` configurations should be given.") := by
    unfold selectInst
    simp [hl, hd, hs]
  have hg := generate_sel_err sem config w w1 coll driver _ hdrv hcoll hsel
  have hfr := get_collection_frame w config.collection_id
  rw [hcoll] at hfr
  refine ⟨?_, ?_, ?_, ?_, ?_⟩
  · rw [hg]
    rfl
  · rw [hg]
  · rw [hg]
    exact hfr.1
  · rw [hg]
    exact hfr.2.1
  · rw [hg]
    exact hfr.2.2.1

/-- Witness for C6_no_policy_config_error at a concrete selection-free
configuration over the exemplar world. -/
theorem C6_no_policy_config_error_witness :
    isConfigError (generate semEx cfgC6w wEx).2 = true
    ∧ (generate semEx cfgC6w wEx).2 = .error (.valueError
        "One of `label` or `datamodel` configurations should be given.")
    ∧ (generate semEx cfgC6w wEx).1.cache = wEx.cache
    ∧ (generate semEx cfgC6w wEx).1.fs = wEx.fs
    ∧ (generate semEx cfgC6w wEx).1.kb = wEx.kb :=
  C6_no_policy_config_error semEx cfgC6w wEx wEx collEx "json"
    rfl rfl rfl rfl rfl

/-- Claim C7 (code bug): on the location branch the missing
`tripper.triplestore` settings do raise the `KeyError` of lines 260-265
after persistence, and the persisted file remains durable; but on the
no-location branch the persistence step itself raises `FileNotFoundError`
(the line 253 temp-path slip), so the settings check is never reached and
the claimed missing-configuration error never surfaces there. -/
theorem C7_settings_check_behavior :
    (generate semEx cfgC7loc wEx).2 = .error (.keyError kbSettingsMsg)
    ∧ lookupA (generate semEx cfgC7loc wEx).1.fs "/out/g.json"
        = some (semEx.serialize "json" none (Artifact.inst instEx))
    ∧ (generate semEx cfgC7bad wEx).2
        = .error (.fileNotFound "/tmp/t1/data") :=
  ⟨rfl, rfl, rfl⟩

/-- Claim C8: every knowledge-graph connection opened by the
provenance-recording step is closed exactly once on every exit path of
that step: for all collaborator semantics, configurations, artifacts and
worlds, either no connection is opened and none closed, or exactly one is
opened and exactly one closed, whether the step returns or raises. -/
theorem C8_connection_closed_once (sem : Sem) (config : DLiteStorageConfig)
    (inst : Artifact) (w : World) :
    ((kbDocument sem config inst w).1.kb.openCount = w.kb.openCount
      ∧ (kbDocument sem config inst w).1.kb.closeCount = w.kb.closeCount)
    ∨ ((kbDocument sem config inst w).1.kb.openCount = w.kb.openCount + 1
      ∧ (kbDocument sem config inst w).1.kb.closeCount
          = w.kb.closeCount + 1) := by
  unfold kbDocument
  by_cases hi : truthyS config.kb_document_iri = true
  · by_cases hs : truthyD (get_settings w "tripper.triplestore") = true
    · right
      have h1 := kbBody_counts sem config (mkResource config inst)
        { w.kb with openCount := w.kb.openCount + 1 }
      simp [hi, hs, h1.1, h1.2]
    · left
      simp [hi, hs]
  · left
    simp [hi]

/-- Claim C9: with `store_collection` set and a truthy
`store_collection_id`, the persisted artifact is a copy of the collection
under the new id with instances and relations identical to the original,
while the original collection is republished unmodified under its own id;
with no new id the collection itself (same identity) is the persisted
artifact. -/
theorem C9_store_collection_copy (sem : Sem) (config : DLiteStorageConfig)
    (w w1 : World) (coll : Collection) (driver : String)
    (hdrv : resolveDriver sem config = .ok driver)
    (hcoll : get_collection w config.collection_id = (w1, .ok coll))
    (hl : truthyS config.label = false)
    (hd : truthyS config.datamodel = false)
    (hs : config.store_collection = true)
    (hloc : truthyS config.location = true)
    (hkb : truthyS config.kb_document_iri = false) :
    (truthyS config.store_collection_id = true →
      (generate sem config w).2 = .ok coll.id
      ∧ lookupA (generate sem config w).1.fs (config.location.getD "")
          = some (sem.serialize driver config.options
              (Artifact.coll { id := config.store_collection_id.getD "",
                               insts := coll.insts, rels := coll.rels }))
      ∧ lookupA (generate sem config w).1.registry coll.id = some coll)
    ∧ (truthyS config.store_collection_id = false →
      (generate sem config w).2 = .ok coll.id
      ∧ lookupA (generate sem config w).1.fs (config.location.getD "")
          = some (sem.serialize driver config.options
              (Artifact.coll coll))) := by
  have step : ∀ a : Artifact, selectInst sem config coll = .ok a →
      (generate sem config w).2 = .ok coll.id
      ∧ lookupA (generate sem config w).1.fs (config.location.getD "")
          = some (sem.serialize driver config.options a)
      ∧ lookupA (generate sem config w).1.registry coll.id = some coll := by
    intro a hsel
    have hsave : saveInst sem config driver a w1
        = (locWorld sem config driver a w1, .ok ()) := by
      unfold saveInst locWorld
      simp [hloc]
    have hkbd : kbDocument sem config a (locWorld sem config driver a w1)
        = (locWorld sem config driver a w1, .ok ()) := by
      unfold kbDocument
      simp [hkb]
    have hg := generate_run_ok sem config w w1 _ _ coll a driver
      hdrv hcoll hsel hsave hkbd
    refine ⟨?_, ?_, ?_⟩
    · rw [hg]
    · rw [hg]
      simp [update_collection, locWorld, lookupA_insertA_self]
    · rw [hg]
      simp [update_collection, lookupA_insertA_self]
  constructor
  · intro hid
    have hsel : selectInst sem config coll
        = .ok (.coll { id := config.store_collection_id.getD "",
                       insts := coll.insts, rels := coll.rels }) := by
      unfold selectInst
      simp [hl, hd, hs, hid]
    exact step _ hsel
  · intro hid
    have hsel : selectInst sem config coll = .ok (.coll coll) := by
      unfold selectInst
      simp [hl, hd, hs, hid]
    have h := step _ hsel
    exact ⟨h.1, h.2.1⟩

/-- Witness for C9_store_collection_copy at the copy-under-new-id
configuration over the exemplar world. -/
theorem C9_store_collection_copy_witness :
    truthyS cfgC9.store_collection_id = true
    ∧ ((generate semEx cfgC9 wEx).2 = .ok "c1"
      ∧ lookupA (generate semEx cfgC9 wEx).1.fs "/out/c.json"
          = some (semEx.serialize "json" none
              (Artifact.coll { id := "copy1", insts := collEx.insts,
                               rels := collEx.rels }))
      ∧ lookupA (generate semEx cfgC9 wEx).1.registry "c1" = some collEx) :=
  ⟨rfl, (C9_store_collection_copy semEx cfgC9 wEx wEx collEx "json"
    rfl rfl rfl rfl rfl rfl rfl).1 rfl⟩

/-- Claim C10: the driver recorded in the provenance resource description
is the raw `config.driver` field (line 286): when the driver actually
used for persistence was resolved from `mediaType`, the recorded driver
is `none`, never the resolved name that performed the write. -/
theorem C10_recorded_driver (sem : Sem) (config : DLiteStorageConfig)
    (w w1 : World) (coll : Collection) (inst : Artifact) (d : String)
    (hnone : config.driver = none)
    (hdrv : get_driver sem config.mediaType = .ok d)
    (hcoll : get_collection w config.collection_id = (w1, .ok coll))
    (hsel : selectInst sem config coll = .ok inst)
    (hloc : truthyS config.location = true)
    (hiri : truthyS config.kb_document_iri = true)
    (hset : truthyD (get_settings w "tripper.triplestore") = true)
    (hcomp : truthyS config.kb_document_computation = false) :
    lookupA (generate sem config w).1.kb.containers
        (config.kb_document_iri.getD "") = some (mkResource config inst)
    ∧ (mkResource config inst).driver = none
    ∧ lookupA (generate sem config w).1.fs (config.location.getD "")
        = some (sem.serialize d config.options inst) := by
  have hrd : resolveDriver sem config = .ok d := by
    unfold resolveDriver
    simp [hnone, hdrv, truthyS]
  have hsave : saveInst sem config d inst w1
      = (locWorld sem config d inst w1, .ok ()) := by
    unfold saveInst locWorld
    simp [hloc]
  have hfr := get_collection_frame w config.collection_id
  rw [hcoll] at hfr
  have hset2 : truthyD (get_settings (locWorld sem config d inst w1)
      "tripper.triplestore") = true := by
    have hs1 : w1.settings = w.settings := hfr.2.2.2.1
    simp only [get_settings, locWorld] at hset ⊢
    simpa [hs1] using hset
  have hkb2 : (kbDocument sem config inst
      (locWorld sem config d inst w1)).2 = .ok () := by
    unfold kbDocument
    simp [hiri, hset2, kbBody_ok, hcomp]
  have hkbd : kbDocument sem config inst (locWorld sem config d inst w1)
      = ((kbDocument sem config inst
          (locWorld sem config d inst w1)).1, .ok ()) := by
    rw [← hkb2]
  have hg := generate_run_ok sem config w w1 _ _ coll inst d
    hrd hcoll hsel hsave hkbd
  have hsaved := kbDocument_saved sem config inst
    (locWorld sem config d inst w1) hiri hset2
  refine ⟨?_, ?_, ?_⟩
  · rw [hg]
    simpa [update_collection] using hsaved.1
  · simp [mkResource, hnone]
  · rw [hg]
    have hfs := hsaved.2
    simp only [update_collection]
    rw [hfs]
    simp [locWorld, lookupA_insertA_self]

/-- Witness for C10_recorded_driver: the driver used for persistence is
`json`, resolved from the media type, while the recorded driver is
`none`. -/
theorem C10_recorded_driver_witness :
    cfgC10.driver = none
    ∧ (lookupA (generate semEx cfgC10 wKb).1.kb.containers
          "http://ex.com/d1"
        = some (mkResource cfgC10 (Artifact.inst instEx))
      ∧ (mkResource cfgC10 (Artifact.inst instEx)).driver = none
      ∧ lookupA (generate semEx cfgC10 wKb).1.fs "/out/d.json"
          = some (semEx.serialize "json" none (Artifact.inst instEx))) :=
  ⟨rfl, C10_recorded_driver semEx cfgC10 wKb wKb collEx
    (Artifact.inst instEx) "json" rfl rfl rfl rfl rfl rfl rfl rfl⟩

end OteapiDlite
